import Mathlib

/-!
Verification of the "courses" REST service (rust-web repository).

The repository holds two HTTP service variants over a `Course` data model:
an in-memory variant (`src/actix-2/src/main.rs`) storing courses in a
mutex-guarded vector, and a PostgreSQL-backed variant
(`src/actix-postgres/src/main.rs`).  This file gives a shallow embedding of
the data model and the request handlers of both variants and proves the
specification's claims about them.

Modelling conventions:
- `u32`/`i32` machine integers become `Nat`/`Int`; where overflow matters
  (the in-memory id counter and the visit counter, both `u32`) arithmetic is
  taken explicitly modulo `2 ^ 32`.
- `NaiveDateTime` timestamps become `Nat`; `Utc::now()` is an explicit
  parameter of the operations that call it.
- JSON serialization is modelled by an explicit `Json` value type.
- A Rust panic (a failing `.unwrap()`) is modelled as `Option.none`.
- SQL statements are modelled over an in-order list of table rows: `SELECT
  ... WHERE` is an order-preserving filter, `INSERT ... RETURNING` appends a
  row and yields it, and inserting NULL into the NOT NULL `id` column is a
  database error.
-/

/-- JSON values, as produced by the handlers' response serialization. -/
inductive Json where
  | str : String → Json
  | num : Int → Json
  | null : Json
  | arr : List Json → Json
  | obj : List (String × Json) → Json
deriving Repr

/-- An HTTP response: a status code together with a JSON body. -/
structure HttpResponse where
  status : Nat
  body : Json
deriving Repr

/-- The modulus of `u32` arithmetic. -/
def U32 : Nat := 2 ^ 32

namespace ActixTwo

/-- The `Course` record of the in-memory variant (`actix-2`): `teacher_id`
and `id` are `u32` in the source, `time` an optional timestamp. -/
structure Course where
  teacher_id : Nat
  id : Option Nat
  name : String
  time : Option Nat
deriving Repr, DecidableEq

/-- Serde serialization of a `Course` to JSON, field by field. -/
def courseToJson (c : Course) : Json :=
  Json.obj
    [ ("teacher_id", Json.num c.teacher_id),
      ("id", match c.id with | some i => Json.num i | none => Json.null),
      ("name", Json.str c.name),
      ("time", match c.time with | some t => Json.num t | none => Json.null) ]

/-- The shared `AppState` of the in-memory variant: the health message, the
`u32` visit counter and the course vector (mutex omitted: handlers run
atomically on the state). -/
structure AppState where
  health_check_response : String
  visit_count : Nat
  courses : List Course
deriving Repr

/-- The initial state built in `main`: message "I'm OK.", counter 0, empty
course vector. -/
def initialState : AppState :=
  { health_check_response := "I'm OK.", visit_count := 0, courses := [] }

/-- Embeds `health_check_handler` (actix-2): formats
`"{message} {count} times"` from the current counter, then increments the
counter (`u32`, hence modulo `2 ^ 32`), and returns 200 with the string as
JSON. -/
def health_check_handler (s : AppState) : HttpResponse × AppState :=
  let response := s.health_check_response ++ " " ++ toString s.visit_count ++ " times"
  ( { status := 200, body := Json.str response },
    { s with visit_count := (s.visit_count + 1) % U32 } )

/-- Embeds `new_course` (actix-2): counts the stored courses with the same
`teacher_id`, builds the new record with `id = count as u32 + 1` and
`time = Some(Utc::now())` (`now` is the parameter), pushes it, and responds
200 with the JSON string "Course added". -/
def new_course (input : Course) (s : AppState) (now : Nat) : HttpResponse × AppState :=
  let course_count :=
    (s.courses.filter (fun course => course.teacher_id == input.teacher_id)).length
  let created : Course :=
    { teacher_id := input.teacher_id,
      id := some ((course_count + 1) % U32),
      name := input.name,
      time := some now }
  ( { status := 200, body := Json.str "Course added" },
    { s with courses := s.courses ++ [created] } )

/-- The filtered course list computed by `get_courses_for_teacher`
(actix-2): the stored courses whose `teacher_id` matches, in storage
order. -/
def filtered_courses (s : AppState) (teacher_id : Nat) : List Course :=
  s.courses.filter (fun course => course.teacher_id == teacher_id)

/-- Embeds `get_courses_for_teacher` (actix-2): 200 with the JSON array of
the matching courses when there are any, else 200 with the JSON string
"No courses found for teacher". -/
def get_courses_for_teacher (s : AppState) (teacher_id : Nat) : HttpResponse :=
  if (filtered_courses s teacher_id).length > 0 then
    { status := 200, body := Json.arr ((filtered_courses s teacher_id).map courseToJson) }
  else
    { status := 200, body := Json.str "No courses found for teacher" }

/-- Embeds `get_course_detail` (actix-2): finds the first stored course with
the given `teacher_id` and `id`; 200 with its JSON when found, else 200 with
the JSON string "Course not found". -/
def get_course_detail (s : AppState) (teacher_id course_id : Nat) : HttpResponse :=
  match s.courses.find? (fun x => x.teacher_id == teacher_id && x.id == some course_id) with
  | some course => { status := 200, body := courseToJson course }
  | none => { status := 200, body := Json.str "Course not found" }

/-- A create request as the server sees it: the posted `Course` body plus
the clock value at handling time. -/
def applyCreate (s : AppState) (req : Course × Nat) : AppState :=
  (new_course req.1 s req.2).2

/-- The state after a sequence of create requests. -/
def applyCreates (reqs : List (Course × Nat)) (s : AppState) : AppState :=
  reqs.foldl applyCreate s

/-- The number of stored courses of a teacher, as `new_course` counts it. -/
def countFor (s : AppState) (t : Nat) : Nat :=
  (filtered_courses s t).length

/-- The id-run invariant: for every teacher, the ids of that teacher's
stored courses, in storage order, are exactly `some 1, ..., some N` where
`N` is that teacher's course count. -/
def IdRunInv (s : AppState) : Prop :=
  ∀ t, (filtered_courses s t).map Course.id =
    (List.range (countFor s t)).map (fun i => some (i + 1))

/-- The state after `k` successive calls of the health-check handler. -/
def iterHealth (s : AppState) : Nat → AppState
  | 0 => s
  | k + 1 => (health_check_handler (iterHealth s k)).2

end ActixTwo

namespace ActixPostgres

/-- The error enum `MyError` of the persisted variant (`actix-postgres`). -/
inductive MyError where
  | DBError : String → MyError
  | ActixError : String → MyError
  | NotFound : String → MyError
deriving Repr, DecidableEq

/-- Embeds `MyError::error_response` (the inherent method): the message put
in the response body.  A `DBError` or `ActixError` detail is only logged;
a `NotFound` message is passed through verbatim. -/
def MyError.error_response : MyError → String
  | MyError.DBError _msg => "Database error"
  | MyError.ActixError _msg => "Internal server error"
  | MyError.NotFound msg => msg

/-- Embeds `MyError::status_code` of the `ResponseError` impl. -/
def MyError.status_code : MyError → Nat
  | MyError.DBError _msg => 500
  | MyError.ActixError _msg => 500
  | MyError.NotFound _msg => 404

/-- Embeds `ResponseError::error_response` for `MyError`: the HTTP response
actix builds from an error, a `MyErrorResponse { error_msg }` JSON body
under the error's status code. -/
def MyError.to_http (e : MyError) : HttpResponse :=
  { status := e.status_code,
    body := Json.obj [("error_msg", Json.str e.error_response)] }

/-- The `Course` record of the persisted variant: `teacher_id` and `id` are
`i32` in the source. -/
structure Course where
  teacher_id : Int
  id : Option Int
  name : String
  time : Option Nat
deriving Repr, DecidableEq

/-- Serde serialization of the persisted variant's `Course` to JSON. -/
def courseToJson (c : Course) : Json :=
  Json.obj
    [ ("teacher_id", Json.num c.teacher_id),
      ("id", match c.id with | some i => Json.num i | none => Json.null),
      ("name", Json.str c.name),
      ("time", match c.time with | some t => Json.num t | none => Json.null) ]

/-- A row of the `course` table: columns `id`, `teacher_id`, `name` (all
NOT NULL — the sqlx macros decode them as non-optional) and the nullable
`time`. -/
structure Row where
  id : Int
  teacher_id : Int
  name : String
  time : Option Nat
deriving Repr, DecidableEq

/-- The `course` table, its rows in insertion order (`SELECT ... WHERE` is
modelled as an order-preserving filter over this list). -/
abbrev Db := List Row

/-- The row-to-`Course` conversion used on every fetched row.  The source
runs `r.time.unwrap()`: a NULL `time` panics, modelled as `none`. -/
def rowToCourse (r : Row) : Option Course :=
  match r.time with
  | some t =>
      some { id := some r.id, teacher_id := r.teacher_id, name := r.name, time := some t }
  | none => none

/-- Embeds `get_courses_for_teacher_db`: fetches all rows with the given
`teacher_id`, converts each (panicking on a NULL `time`), and returns
`NotFound` when no row matched.  The outer `none` is a panic. -/
def get_courses_for_teacher_db (db : Db) (teacher_id : Int) :
    Option (Except MyError (List Course)) :=
  ((db.filter (fun r => r.teacher_id == teacher_id)).mapM' rowToCourse).map
    (fun courses =>
      match courses.length with
      | 0 => Except.error (MyError.NotFound "Courses not found for teacher")
      | _ + 1 => Except.ok courses)

/-- Embeds `get_course_details_db`: `fetch_one` of the first row matching
`teacher_id` and `id`, followed by `.unwrap()` — both a missing row and a
NULL `time` panic (modelled as `none`). -/
def get_course_details_db (db : Db) (teacher_id course_id : Int) : Option Course :=
  match (db.filter (fun r => r.teacher_id == teacher_id && r.id == course_id)).head? with
  | some row => rowToCourse row
  | none => none

/-- Embeds `post_new_course_db`: runs
`insert into course(id, teacher_id, name) values($1,$2,$3) returning ...`
with `$1 = new_course.id`.  `dbTime` is the `time` value the database gives
the new row (its column default, NULL when there is none).  Inserting NULL
into the NOT NULL `id` column is a database error surfaced through `?` as
`DBError`; the returned row's `time` is unwrapped, so a NULL `time` panics
(the outer `none`).  On success the created `Course` and the table with the
appended row are returned. -/
def post_new_course_db (db : Db) (new_course : Course) (dbTime : Option Nat) :
    Option (Except MyError (Course × Db)) :=
  match new_course.id with
  | none =>
      some (Except.error (MyError.DBError
        "null value in column id violates not-null constraint"))
  | some cid =>
      let row : Row :=
        { id := cid, teacher_id := new_course.teacher_id,
          name := new_course.name, time := dbTime }
      match rowToCourse row with
      | none => none
      | some course => some (Except.ok (course, db ++ [row]))

/-- Embeds the `new_course` handler (actix-postgres): calls
`post_new_course_db` and maps a created course to 200 with its JSON. -/
def new_course (db : Db) (input : Course) (dbTime : Option Nat) :
    Option (Except MyError (HttpResponse × Db)) :=
  (post_new_course_db db input dbTime).map (fun res =>
    res.map (fun cd => ({ status := 200, body := courseToJson cd.1 }, cd.2)))

/-- Embeds the `get_courses_for_teacher` handler (actix-postgres): calls
`get_courses_for_teacher_db` and maps a course list to 200 with its JSON
array. -/
def get_courses_for_teacher (db : Db) (teacher_id : Int) :
    Option (Except MyError HttpResponse) :=
  (get_courses_for_teacher_db db teacher_id).map (fun res =>
    res.map (fun courses =>
      { status := 200, body := Json.arr (courses.map courseToJson) }))

/-- Embeds the `get_course_detail` handler (actix-postgres): calls
`get_course_details_db` (which panics on a missing row) and wraps the course
in a 200 response. -/
def get_course_detail (db : Db) (teacher_id course_id : Int) : Option HttpResponse :=
  (get_course_details_db db teacher_id course_id).map (fun course =>
    { status := 200, body := courseToJson course })

/-- The response actix sends for a handler's `Result`: the success response
itself, or the error converted through `ResponseError::error_response`. -/
def runResult (res : Except MyError HttpResponse) : HttpResponse :=
  match res with
  | Except.ok r => r
  | Except.error e => e.to_http

/-- The `Course` value a row with a non-NULL `time` converts to. -/
def rowCourse (r : Row) : Course :=
  { id := some r.id, teacher_id := r.teacher_id, name := r.name, time := r.time }

end ActixPostgres

/-- A sample request sequence used to witness the universally quantified
claims on concrete data. -/
def sampleReqs : List (ActixTwo.Course × Nat) :=
  [ ({ teacher_id := 1, id := none, name := "Algebra", time := none }, 10),
    ({ teacher_id := 1, id := none, name := "Geometry", time := none }, 11),
    ({ teacher_id := 2, id := none, name := "History", time := none }, 12) ]

namespace ActixTwo

lemma countFor_le_length (s : AppState) (t : Nat) : countFor s t ≤ s.courses.length :=
  List.length_filter_le _ _

lemma applyCreates_cons (r : Course × Nat) (rs : List (Course × Nat)) (s : AppState) :
    applyCreates (r :: rs) s = applyCreates rs (applyCreate s r) := rfl

lemma applyCreate_courses (s : AppState) (c : Course) (now : Nat) :
    (applyCreate s (c, now)).courses =
      s.courses ++
        [{ teacher_id := c.teacher_id,
           id := some ((countFor s c.teacher_id + 1) % U32),
           name := c.name, time := some now }] := rfl

lemma filtered_courses_applyCreate (s : AppState) (c : Course) (now : Nat) (t : Nat) :
    filtered_courses (applyCreate s (c, now)) t =
      filtered_courses s t ++
        if c.teacher_id == t then
          [{ teacher_id := c.teacher_id,
             id := some ((countFor s c.teacher_id + 1) % U32),
             name := c.name, time := some now }]
        else [] := by
  simp only [filtered_courses, applyCreate_courses, List.filter_append]
  by_cases h : c.teacher_id == t <;> simp [h]

lemma countFor_applyCreate (s : AppState) (c : Course) (now : Nat) (t : Nat) :
    countFor (applyCreate s (c, now)) t =
      countFor s t + if c.teacher_id == t then 1 else 0 := by
  unfold countFor
  rw [filtered_courses_applyCreate]
  by_cases h : c.teacher_id == t <;> simp [h]

lemma idRunInv_initialState : IdRunInv initialState := by
  intro t
  simp [filtered_courses, countFor, initialState]

lemma idRunInv_applyCreate (s : AppState) (c : Course) (now : Nat)
    (hs : IdRunInv s) (hb : countFor s c.teacher_id + 1 < U32) :
    IdRunInv (applyCreate s (c, now)) := by
  intro t
  rw [filtered_courses_applyCreate, countFor_applyCreate]
  by_cases h : c.teacher_id == t
  · have ht : c.teacher_id = t := by simpa using h
    subst ht
    rw [if_pos h, if_pos h, List.map_append, hs c.teacher_id]
    rw [Nat.mod_eq_of_lt hb]
    simp [List.range_succ]
  · rw [if_neg h, if_neg h]
    simp [hs t]

lemma courses_length_applyCreates (reqs : List (Course × Nat)) (s : AppState) :
    (applyCreates reqs s).courses.length = s.courses.length + reqs.length := by
  induction reqs generalizing s with
  | nil => simp [applyCreates]
  | cons r rs ih =>
      obtain ⟨c, now⟩ := r
      rw [applyCreates_cons, ih, applyCreate_courses]
      simp
      omega

lemma idRunInv_applyCreates (reqs : List (Course × Nat)) (s : AppState)
    (hs : IdRunInv s) (hb : s.courses.length + reqs.length < U32) :
    IdRunInv (applyCreates reqs s) := by
  induction reqs generalizing s with
  | nil => exact hs
  | cons r rs ih =>
      obtain ⟨c, now⟩ := r
      have hb1 : countFor s c.teacher_id + 1 < U32 := by
        have h1 := countFor_le_length s c.teacher_id
        simp only [List.length_cons] at hb
        omega
      have hs' := idRunInv_applyCreate s c now hs hb1
      have hb' : (applyCreate s (c, now)).courses.length + rs.length < U32 := by
        have h2 : (applyCreate s (c, now)).courses.length = s.courses.length + 1 := by
          rw [applyCreate_courses]; simp
        simp only [List.length_cons] at hb
        omega
      rw [applyCreates_cons]
      exact ih _ hs' hb'

lemma iterHealth_health_check_response (s : AppState) (k : Nat) :
    (iterHealth s k).health_check_response = s.health_check_response := by
  induction k with
  | zero => rfl
  | succ n ih => simp [iterHealth, health_check_handler, ih]

lemma iterHealth_visit_count (s : AppState) (hv : s.visit_count < U32) (k : Nat) :
    (iterHealth s k).visit_count = (s.visit_count + k) % U32 := by
  induction k with
  | zero => simp [iterHealth, Nat.mod_eq_of_lt hv]
  | succ n ih =>
      show ((iterHealth s n).visit_count + 1) % U32 = (s.visit_count + (n + 1)) % U32
      rw [ih, Nat.mod_add_mod, ← Nat.add_assoc]

end ActixTwo

namespace ActixPostgres

lemma rowToCourse_eq_some (r : Row) (c : Course) (h : rowToCourse r = some c) :
    c = rowCourse r ∧ r.time.isSome := by
  cases ht : r.time with
  | none => simp [rowToCourse, ht] at h
  | some t =>
      simp only [rowToCourse, ht, Option.some.injEq] at h
      exact ⟨by simp [← h, rowCourse, ht], by simp [ht]⟩

lemma mapM'_rowToCourse_some (rows : List Row) (cs : List Course)
    (h : rows.mapM' rowToCourse = some cs) :
    cs = rows.map rowCourse ∧ ∀ r ∈ rows, r.time.isSome := by
  induction rows generalizing cs with
  | nil =>
      simp only [List.mapM'_nil] at h
      cases h
      simp
  | cons r rs ih =>
      cases hr : rowToCourse r with
      | none => simp [List.mapM'_cons, hr] at h
      | some c =>
          cases hrs : rs.mapM' rowToCourse with
          | none => simp [List.mapM'_cons, hr, hrs] at h
          | some cs' =>
              have h' : c :: cs' = cs := by
                simpa [List.mapM'_cons, hr, hrs] using h
              obtain ⟨hc, htime⟩ := rowToCourse_eq_some r c hr
              obtain ⟨hcs', hall⟩ := ih cs' hrs
              constructor
              · rw [← h', List.map_cons, ← hc, ← hcs']
              · intro x hx
                rcases List.mem_cons.mp hx with hx | hx
                · exact hx ▸ htime
                · exact hall x hx

lemma mapM'_rowToCourse_none (rows : List Row) :
    rows.mapM' rowToCourse = none ↔ ∃ r ∈ rows, r.time = none := by
  induction rows with
  | nil => simp
  | cons r rs ih =>
      cases ht : r.time with
      | none =>
          constructor
          · intro _; exact ⟨r, List.mem_cons_self r rs, ht⟩
          · intro _; simp [List.mapM'_cons, rowToCourse, ht]
      | some t =>
          cases hrs : rs.mapM' rowToCourse with
          | none =>
              constructor
              · intro _
                obtain ⟨x, hx, hxt⟩ := ih.mp hrs
                exact ⟨x, List.mem_cons_of_mem r hx, hxt⟩
              · intro _; simp [List.mapM'_cons, rowToCourse, ht, hrs]
          | some cs =>
              have hne : ¬ ∃ x ∈ rs, x.time = none := by
                intro hex
                rw [← ih] at hex
                simp [hex] at hrs
              constructor
              · intro hcontra
                simp [List.mapM'_cons, rowToCourse, ht, hrs] at hcontra
              · intro hex
                rcases hex with ⟨x, hx, hxt⟩
                rcases List.mem_cons.mp hx with hx | hx
                · rw [hx, ht] at hxt; cases hxt
                · exact absurd ⟨x, hx, hxt⟩ hne

lemma get_courses_for_teacher_db_ok (db : Db) (t : Int) (courses : List Course)
    (h : get_courses_for_teacher_db db t = some (Except.ok courses)) :
    courses = (db.filter (fun r => r.teacher_id == t)).map rowCourse ∧
      courses.length ≠ 0 := by
  unfold get_courses_for_teacher_db at h
  cases hm : (db.filter (fun r => r.teacher_id == t)).mapM' rowToCourse with
  | none => rw [hm] at h; cases h
  | some cs =>
      rw [hm] at h
      simp only [Option.map_some', Option.some.injEq] at h
      cases hl : cs.length with
      | zero => rw [hl] at h; cases h
      | succ n =>
          rw [hl] at h
          cases h
          obtain ⟨heq, _⟩ := mapM'_rowToCourse_some _ courses hm
          exact ⟨heq, by omega⟩

end ActixPostgres

/-- C1: In the in-memory variant, for every sequence of create operations
starting from the initial (empty) store, every teacher's stored course ids,
read in insertion order, are exactly the strictly increasing run
`some 1, some 2, ..., some N` where `N` is that teacher's course count (so
ids are teacher-local and duplicate-free); moreover one further create for a
teacher who already has `N` stored courses appends a course with id `N + 1`.
The bound `reqs.length + 1 < 2 ^ 32` keeps the `u32` id arithmetic from
wrapping. -/
theorem c1_inmem_id_assignment (reqs : List (ActixTwo.Course × Nat))
    (hb : reqs.length + 1 < U32) :
    (∀ t, ((ActixTwo.filtered_courses (ActixTwo.applyCreates reqs ActixTwo.initialState) t).map
        ActixTwo.Course.id) =
      (List.range (ActixTwo.countFor (ActixTwo.applyCreates reqs ActixTwo.initialState) t)).map
        (fun i => some (i + 1))) ∧
    (∀ c now,
      ((ActixTwo.new_course c (ActixTwo.applyCreates reqs ActixTwo.initialState) now).2).courses =
        (ActixTwo.applyCreates reqs ActixTwo.initialState).courses ++
          [{ teacher_id := c.teacher_id,
             id := some (ActixTwo.countFor (ActixTwo.applyCreates reqs ActixTwo.initialState)
               c.teacher_id + 1),
             name := c.name, time := some now }]) := by
  have hrun := ActixTwo.idRunInv_applyCreates reqs ActixTwo.initialState
    ActixTwo.idRunInv_initialState (by simpa [ActixTwo.initialState] using Nat.lt_of_succ_lt hb)
  refine ⟨hrun, fun c now => ?_⟩
  have hcount : ActixTwo.countFor (ActixTwo.applyCreates reqs ActixTwo.initialState)
      c.teacher_id + 1 < U32 := by
    have h1 := ActixTwo.countFor_le_length (ActixTwo.applyCreates reqs ActixTwo.initialState)
      c.teacher_id
    have h2 := ActixTwo.courses_length_applyCreates reqs ActixTwo.initialState
    have h3 : ActixTwo.initialState.courses.length = 0 := rfl
    omega
  have := ActixTwo.applyCreate_courses (ActixTwo.applyCreates reqs ActixTwo.initialState) c now
  rw [Nat.mod_eq_of_lt hcount] at this
  exact this

theorem c1_inmem_id_assignment_witness :
    sampleReqs.length + 1 < U32 ∧
    ((∀ t, ((ActixTwo.filtered_courses (ActixTwo.applyCreates sampleReqs ActixTwo.initialState)
        t).map ActixTwo.Course.id) =
      (List.range (ActixTwo.countFor (ActixTwo.applyCreates sampleReqs ActixTwo.initialState)
        t)).map (fun i => some (i + 1))) ∧
    (∀ c now,
      ((ActixTwo.new_course c (ActixTwo.applyCreates sampleReqs ActixTwo.initialState)
          now).2).courses =
        (ActixTwo.applyCreates sampleReqs ActixTwo.initialState).courses ++
          [{ teacher_id := c.teacher_id,
             id := some (ActixTwo.countFor (ActixTwo.applyCreates sampleReqs ActixTwo.initialState)
               c.teacher_id + 1),
             name := c.name, time := some now }])) :=
  ⟨by norm_num [sampleReqs, U32],
   c1_inmem_id_assignment sampleReqs (by norm_num [sampleReqs, U32])⟩


/-- C2 (counterexample): the first in-memory POST with `teacher_id = 1`
does store the course record with id 1, but its 200 response body is the
JSON string "Course added" — not the JSON serialization of the created
`Course`, and in particular not a payload containing `id = 1`. -/
theorem c2_counterexample_inmem_create_body :
    (ActixTwo.new_course
        { teacher_id := 1, id := none, name := "Algebra", time := none }
        ActixTwo.initialState 0).1.body = Json.str "Course added" ∧
    ((ActixTwo.new_course
        { teacher_id := 1, id := none, name := "Algebra", time := none }
        ActixTwo.initialState 0).2).courses =
      [{ teacher_id := 1, id := some 1, name := "Algebra", time := some 0 }] ∧
    (ActixTwo.new_course
        { teacher_id := 1, id := none, name := "Algebra", time := none }
        ActixTwo.initialState 0).1.body ≠
      ActixTwo.courseToJson
        { teacher_id := 1, id := some 1, name := "Algebra", time := some 0 } := by
  refine ⟨rfl, rfl, ?_⟩
  simp [ActixTwo.new_course, ActixTwo.courseToJson]

/-- C2 (amended): a successful create in the persisted variant responds 200
with the JSON serialization of the created `Course`; the in-memory variant
instead always responds 200 with the fixed JSON string "Course added" and
never echoes the created record back. -/
theorem c2_create_response_bodies :
    (∀ (s : ActixTwo.AppState) (c : ActixTwo.Course) (now : Nat),
      (ActixTwo.new_course c s now).1 =
        { status := 200, body := Json.str "Course added" }) ∧
    (∀ (db : ActixPostgres.Db) (c course : ActixPostgres.Course)
        (db' : ActixPostgres.Db) (dt : Option Nat),
      ActixPostgres.post_new_course_db db c dt = some (Except.ok (course, db')) →
      ActixPostgres.new_course db c dt =
        some (Except.ok
          ({ status := 200, body := ActixPostgres.courseToJson course }, db'))) := by
  refine ⟨fun s c now => rfl, fun db c course db' dt h => ?_⟩
  simp [ActixPostgres.new_course, h, Except.map]

theorem c2_create_response_bodies_witness :
    ActixPostgres.post_new_course_db []
        { teacher_id := 1, id := some 1, name := "Algebra", time := none } (some 5) =
      some (Except.ok
        ({ teacher_id := 1, id := some 1, name := "Algebra", time := some 5 },
         [{ id := 1, teacher_id := 1, name := "Algebra", time := some 5 }])) ∧
    ActixPostgres.new_course []
        { teacher_id := 1, id := some 1, name := "Algebra", time := none } (some 5) =
      some (Except.ok
        ({ status := 200,
           body := ActixPostgres.courseToJson
             { teacher_id := 1, id := some 1, name := "Algebra", time := some 5 } },
         [{ id := 1, teacher_id := 1, name := "Algebra", time := some 5 }])) :=
  ⟨rfl,
   c2_create_response_bodies.2 []
     { teacher_id := 1, id := some 1, name := "Algebra", time := none }
     { teacher_id := 1, id := some 1, name := "Algebra", time := some 5 }
     [{ id := 1, teacher_id := 1, name := "Algebra", time := some 5 }]
     (some 5) rfl⟩

/-- C3: in both variants, listing by teacher returns exactly the stored
records whose `teacher_id` equals the queried teacher, in storage
(insertion) order — for the in-memory variant the returned list is a
sublist of the store containing precisely the matching courses, and for the
persisted variant a successful result is exactly the matching rows of the
table, converted in order; neither ever returns a record of a different
teacher. -/
theorem c3_list_by_teacher_exact :
    (∀ (s : ActixTwo.AppState) (t : Nat),
      List.Sublist (ActixTwo.filtered_courses s t) s.courses ∧
      (∀ c ∈ ActixTwo.filtered_courses s t, c.teacher_id = t) ∧
      (∀ c ∈ s.courses, c.teacher_id = t → c ∈ ActixTwo.filtered_courses s t)) ∧
    (∀ (db : ActixPostgres.Db) (t : Int) (courses : List ActixPostgres.Course),
      ActixPostgres.get_courses_for_teacher_db db t = some (Except.ok courses) →
        courses = (db.filter (fun r => r.teacher_id == t)).map ActixPostgres.rowCourse ∧
        ∀ c ∈ courses, c.teacher_id = t) := by
  constructor
  · intro s t
    refine ⟨List.filter_sublist _, ?_, ?_⟩
    · intro c hc
      have h := (List.mem_filter.mp hc).2
      simpa using h
    · intro c hc hct
      exact List.mem_filter.mpr ⟨hc, by simpa using hct⟩
  · intro db t courses h
    obtain ⟨heq, _⟩ := ActixPostgres.get_courses_for_teacher_db_ok db t courses h
    refine ⟨heq, ?_⟩
    intro c hc
    rw [heq] at hc
    obtain ⟨r, hr, hcr⟩ := List.mem_map.mp hc
    have hrt : r.teacher_id = t := by
      have h2 := (List.mem_filter.mp hr).2
      simpa using h2
    rw [← hcr]
    exact hrt

theorem c3_list_by_teacher_exact_witness :
    ActixPostgres.get_courses_for_teacher_db
        [{ id := 1, teacher_id := 1, name := "Algebra", time := some 0 },
         { id := 5, teacher_id := 2, name := "History", time := some 3 }] 1 =
      some (Except.ok
        [{ teacher_id := 1, id := some 1, name := "Algebra", time := some 0 }]) ∧
    ([{ teacher_id := 1, id := some 1, name := "Algebra", time := some 0 }] =
        (([{ id := 1, teacher_id := 1, name := "Algebra", time := some 0 },
            { id := 5, teacher_id := 2, name := "History", time := some 3 }] :
          ActixPostgres.Db).filter (fun r => r.teacher_id == 1)).map
          ActixPostgres.rowCourse ∧
      ∀ c ∈ [({ teacher_id := 1, id := some 1, name := "Algebra", time := some 0 } :
          ActixPostgres.Course)], c.teacher_id = 1) :=
  ⟨rfl,
   c3_list_by_teacher_exact.2
     [{ id := 1, teacher_id := 1, name := "Algebra", time := some 0 },
      { id := 5, teacher_id := 2, name := "History", time := some 3 }] 1
     [{ teacher_id := 1, id := some 1, name := "Algebra", time := some 0 }] rfl⟩

/-- C4: when no stored record matches the queried teacher, the in-memory
variant responds 200 with the JSON string "No courses found for teacher"
(a string payload, not an array), and the persisted variant returns a
`NotFound` error whose actix response carries HTTP status 404. -/
theorem c4_empty_list_not_found :
    (∀ (s : ActixTwo.AppState) (t : Nat),
      ActixTwo.filtered_courses s t = [] →
      ActixTwo.get_courses_for_teacher s t =
        { status := 200, body := Json.str "No courses found for teacher" }) ∧
    (∀ (db : ActixPostgres.Db) (t : Int),
      db.filter (fun r => r.teacher_id == t) = [] →
      ActixPostgres.get_courses_for_teacher db t =
        some (Except.error
          (ActixPostgres.MyError.NotFound "Courses not found for teacher")) ∧
      (ActixPostgres.MyError.NotFound "Courses not found for teacher").to_http =
        { status := 404,
          body := Json.obj [("error_msg", Json.str "Courses not found for teacher")] }) := by
  constructor
  · intro s t h
    simp [ActixTwo.get_courses_for_teacher, h]
  · intro db t h
    constructor
    · simp [ActixPostgres.get_courses_for_teacher, ActixPostgres.get_courses_for_teacher_db,
        h, Except.map]
    · rfl

theorem c4_empty_list_not_found_witness :
    ActixTwo.filtered_courses ActixTwo.initialState 2 = [] ∧
    ActixTwo.get_courses_for_teacher ActixTwo.initialState 2 =
      { status := 200, body := Json.str "No courses found for teacher" } ∧
    ([({ id := 1, teacher_id := 1, name := "Algebra", time := some 0 } :
        ActixPostgres.Row)].filter (fun r => r.teacher_id == 2) = [] ∧
     (ActixPostgres.get_courses_for_teacher
          [{ id := 1, teacher_id := 1, name := "Algebra", time := some 0 }] 2 =
        some (Except.error
          (ActixPostgres.MyError.NotFound "Courses not found for teacher")) ∧
      (ActixPostgres.MyError.NotFound "Courses not found for teacher").to_http =
        { status := 404,
          body := Json.obj [("error_msg", Json.str "Courses not found for teacher")] })) :=
  ⟨rfl, c4_empty_list_not_found.1 ActixTwo.initialState 2 rfl,
   rfl, c4_empty_list_not_found.2
     [{ id := 1, teacher_id := 1, name := "Algebra", time := some 0 }] 2 rfl⟩

/-- C5: in the persisted variant, whenever no row of the `course` table
matches the queried `(teacher_id, course_id)` pair, the single-record
lookup panics (the `.unwrap()` of `fetch_one`'s error, modelled as `none`)
instead of producing a structured not-found error, and the handler built on
it panics too. -/
theorem c5_get_one_panics_on_missing_row (db : ActixPostgres.Db) (t c : Int)
    (h : db.filter (fun r => r.teacher_id == t && r.id == c) = []) :
    ActixPostgres.get_course_details_db db t c = none ∧
    ActixPostgres.get_course_detail db t c = none := by
  refine ⟨?_, ?_⟩ <;>
    simp [ActixPostgres.get_course_details_db, ActixPostgres.get_course_detail, h]

theorem c5_get_one_panics_on_missing_row_witness :
    [({ id := 1, teacher_id := 1, name := "Algebra", time := some 0 } :
        ActixPostgres.Row)].filter (fun r => r.teacher_id == 2 && r.id == 1) = [] ∧
    (ActixPostgres.get_course_details_db
        [{ id := 1, teacher_id := 1, name := "Algebra", time := some 0 }] 2 1 = none ∧
     ActixPostgres.get_course_detail
        [{ id := 1, teacher_id := 1, name := "Algebra", time := some 0 }] 2 1 = none) :=
  ⟨rfl, c5_get_one_panics_on_missing_row
    [{ id := 1, teacher_id := 1, name := "Algebra", time := some 0 }] 2 1 rfl⟩

/-- C6 (counterexample): the persisted create writes the client-supplied id
straight into the `id` column — posting with `id = 7` inserts a row whose
`id` is 7, and posting with `id = 8` inserts `id = 8`, so the client id is
not ignored and identity assignment is not deferred to the database. -/
theorem c6_counterexample_client_id_written :
    ActixPostgres.post_new_course_db []
        { teacher_id := 1, id := some 7, name := "X", time := none } (some 0) =
      some (Except.ok
        ({ teacher_id := 1, id := some 7, name := "X", time := some 0 },
         [{ id := 7, teacher_id := 1, name := "X", time := some 0 }])) ∧
    ActixPostgres.post_new_course_db []
        { teacher_id := 1, id := some 8, name := "X", time := none } (some 0) =
      some (Except.ok
        ({ teacher_id := 1, id := some 8, name := "X", time := some 0 },
         [{ id := 8, teacher_id := 1, name := "X", time := some 0 }])) :=
  ⟨rfl, rfl⟩

/-- C6 (amended): the persisted create passes the client-supplied id as the
`id` column value of its INSERT: a request carrying `id = k` inserts a row
whose `id` is `k`, and a request without an id inserts NULL into the
NOT NULL `id` column and fails with a database error; the database's
identity/sequence mechanism is never used. -/
theorem c6_persisted_create_id_handling :
    (∀ (db : ActixPostgres.Db) (c : ActixPostgres.Course) (k : Int) (dt : Nat),
      c.id = some k →
      ActixPostgres.post_new_course_db db c (some dt) =
        some (Except.ok
          ({ teacher_id := c.teacher_id, id := some k, name := c.name, time := some dt },
           db ++ [{ id := k, teacher_id := c.teacher_id, name := c.name,
                    time := some dt }]))) ∧
    (∀ (db : ActixPostgres.Db) (c : ActixPostgres.Course) (dt : Option Nat),
      c.id = none →
      ActixPostgres.post_new_course_db db c dt =
        some (Except.error (ActixPostgres.MyError.DBError
          "null value in column id violates not-null constraint"))) := by
  constructor
  · intro db c k dt h
    simp [ActixPostgres.post_new_course_db, h, ActixPostgres.rowToCourse]
  · intro db c dt h
    simp [ActixPostgres.post_new_course_db, h]

theorem c6_persisted_create_id_handling_witness :
    (({ teacher_id := 1, id := some 7, name := "X", time := none } :
        ActixPostgres.Course).id = some 7 ∧
     ActixPostgres.post_new_course_db []
        { teacher_id := 1, id := some 7, name := "X", time := none } (some 0) =
      some (Except.ok
        ({ teacher_id := 1, id := some 7, name := "X", time := some 0 },
         [{ id := 7, teacher_id := 1, name := "X", time := some 0 }]))) ∧
    (({ teacher_id := 1, id := none, name := "Y", time := none } :
        ActixPostgres.Course).id = none ∧
     ActixPostgres.post_new_course_db []
        { teacher_id := 1, id := none, name := "Y", time := none } (some 0) =
      some (Except.error (ActixPostgres.MyError.DBError
        "null value in column id violates not-null constraint"))) :=
  ⟨⟨rfl, c6_persisted_create_id_handling.1 []
      { teacher_id := 1, id := some 7, name := "X", time := none } 7 0 rfl⟩,
   ⟨rfl, c6_persisted_create_id_handling.2 []
      { teacher_id := 1, id := none, name := "Y", time := none } (some 0) rfl⟩⟩

/-- C7: every `MyError` maps to exactly one HTTP status and message — a
`DBError` to 500 with body message "Database error" (the detail never
appears in the response), an `ActixError` to 500 with "Internal server
error", and a `NotFound` to 404 with its message passed through
verbatim. -/
theorem c7_error_taxonomy_mapping (msg : String) :
    (ActixPostgres.MyError.DBError msg).to_http =
      { status := 500, body := Json.obj [("error_msg", Json.str "Database error")] } ∧
    (ActixPostgres.MyError.ActixError msg).to_http =
      { status := 500,
        body := Json.obj [("error_msg", Json.str "Internal server error")] } ∧
    (ActixPostgres.MyError.NotFound msg).to_http =
      { status := 404, body := Json.obj [("error_msg", Json.str msg)] } :=
  ⟨rfl, rfl, rfl⟩

/-- C8: every health-check call responds 200 with the JSON string
`"<message> <count> times"` built from the configured message and the
current visit counter, and increments the counter by exactly one (`u32`,
hence modulo `2 ^ 32`); across a sequence of calls the counts embedded in
successive responses are strictly increasing as long as the `u32` counter
does not wrap (`s.visit_count + j < 2 ^ 32`). -/
theorem c8_health_check_counter (s : ActixTwo.AppState) (i j : Nat)
    (hv : s.visit_count < U32) (hij : i < j) (hb : s.visit_count + j < U32) :
    (∀ k, (ActixTwo.health_check_handler (ActixTwo.iterHealth s k)).1 =
      { status := 200,
        body := Json.str (s.health_check_response ++ " " ++
          toString (ActixTwo.iterHealth s k).visit_count ++ " times") }) ∧
    (ActixTwo.iterHealth s 1).visit_count = s.visit_count + 1 ∧
    (ActixTwo.iterHealth s i).visit_count < (ActixTwo.iterHealth s j).visit_count := by
  refine ⟨fun k => ?_, ?_, ?_⟩
  · simp [ActixTwo.health_check_handler, ActixTwo.iterHealth_health_check_response]
  · rw [ActixTwo.iterHealth_visit_count s hv 1]
    exact Nat.mod_eq_of_lt (by omega)
  · rw [ActixTwo.iterHealth_visit_count s hv i, ActixTwo.iterHealth_visit_count s hv j]
    rw [Nat.mod_eq_of_lt (by omega), Nat.mod_eq_of_lt (by omega)]
    omega

theorem c8_health_check_counter_witness :
    (ActixTwo.initialState.visit_count < U32 ∧ 0 < 2 ∧
      ActixTwo.initialState.visit_count + 2 < U32) ∧
    ((∀ k, (ActixTwo.health_check_handler (ActixTwo.iterHealth ActixTwo.initialState k)).1 =
      { status := 200,
        body := Json.str (ActixTwo.initialState.health_check_response ++ " " ++
          toString (ActixTwo.iterHealth ActixTwo.initialState k).visit_count ++
          " times") }) ∧
    (ActixTwo.iterHealth ActixTwo.initialState 1).visit_count =
      ActixTwo.initialState.visit_count + 1 ∧
    (ActixTwo.iterHealth ActixTwo.initialState 0).visit_count <
      (ActixTwo.iterHealth ActixTwo.initialState 2).visit_count) :=
  ⟨⟨by norm_num [ActixTwo.initialState, U32], by norm_num,
    by norm_num [ActixTwo.initialState, U32]⟩,
   c8_health_check_counter ActixTwo.initialState 0 2
     (by norm_num [ActixTwo.initialState, U32]) (by norm_num)
     (by norm_num [ActixTwo.initialState, U32])⟩

/-- C9: in the in-memory variant, after any sequence of creates from the
empty store, creating one more `Course` and then fetching with the creating
teacher's id and the assigned id (`N + 1` for a teacher with `N` courses)
returns exactly the created record — same `teacher_id`, same `name` (and
here even the same `time`). -/
theorem c9_create_then_get_roundtrip (reqs : List (ActixTwo.Course × Nat))
    (c : ActixTwo.Course) (now : Nat) (hb : reqs.length + 1 < U32) :
    ActixTwo.get_course_detail
        (ActixTwo.new_course c (ActixTwo.applyCreates reqs ActixTwo.initialState) now).2
        c.teacher_id
        (ActixTwo.countFor (ActixTwo.applyCreates reqs ActixTwo.initialState)
          c.teacher_id + 1) =
      { status := 200,
        body := ActixTwo.courseToJson
          { teacher_id := c.teacher_id,
            id := some (ActixTwo.countFor (ActixTwo.applyCreates reqs ActixTwo.initialState)
              c.teacher_id + 1),
            name := c.name, time := some now } } := by
  set S := ActixTwo.applyCreates reqs ActixTwo.initialState with hS
  set N := ActixTwo.countFor S c.teacher_id with hN
  have h3 : ActixTwo.initialState.courses.length = 0 := rfl
  have hrun := ActixTwo.idRunInv_applyCreates reqs ActixTwo.initialState
    ActixTwo.idRunInv_initialState (by omega)
  rw [← hS] at hrun
  have hcount : N + 1 < U32 := by
    have h1 := ActixTwo.countFor_le_length S c.teacher_id
    have h2 := ActixTwo.courses_length_applyCreates reqs ActixTwo.initialState
    rw [← hS] at h2
    omega
  have hcourses : ((ActixTwo.new_course c S now).2).courses =
      S.courses ++ [{ teacher_id := c.teacher_id, id := some (N + 1),
                      name := c.name, time := some now }] := by
    have h4 := ActixTwo.applyCreate_courses S c now
    rw [← hN, Nat.mod_eq_of_lt hcount] at h4
    exact h4
  unfold ActixTwo.get_course_detail
  rw [hcourses, List.find?_append]
  have hnone : S.courses.find?
      (fun x => x.teacher_id == c.teacher_id && x.id == some (N + 1)) = none := by
    rw [List.find?_eq_none]
    intro x hx hpx
    simp only [Bool.and_eq_true, beq_iff_eq] at hpx
    obtain ⟨hxt, hxid⟩ := hpx
    have hxf : x ∈ ActixTwo.filtered_courses S c.teacher_id :=
      List.mem_filter.mpr ⟨hx, by simp [hxt]⟩
    have hmem : x.id ∈ (ActixTwo.filtered_courses S c.teacher_id).map ActixTwo.Course.id :=
      List.mem_map_of_mem _ hxf
    rw [hrun c.teacher_id] at hmem
    obtain ⟨i, hi, hix⟩ := List.mem_map.mp hmem
    have hiN : i < N := List.mem_range.mp hi
    rw [hxid] at hix
    have : i + 1 = N + 1 := by
      injection hix
    omega
  rw [hnone]
  simp

theorem c9_create_then_get_roundtrip_witness :
    sampleReqs.length + 1 < U32 ∧
    ActixTwo.get_course_detail
        (ActixTwo.new_course
          { teacher_id := 1, id := none, name := "Calculus", time := none }
          (ActixTwo.applyCreates sampleReqs ActixTwo.initialState) 42).2
        1
        (ActixTwo.countFor (ActixTwo.applyCreates sampleReqs ActixTwo.initialState) 1 + 1) =
      { status := 200,
        body := ActixTwo.courseToJson
          { teacher_id := 1,
            id := some (ActixTwo.countFor
              (ActixTwo.applyCreates sampleReqs ActixTwo.initialState) 1 + 1),
            name := "Calculus", time := some 42 } } :=
  ⟨by norm_num [sampleReqs, U32],
   c9_create_then_get_roundtrip sampleReqs
     { teacher_id := 1, id := none, name := "Calculus", time := none } 42
     (by norm_num [sampleReqs, U32])⟩

/-- C10: every persisted read and create path unwraps the nullable `time`
column of each fetched row — if any row matching the list query has a NULL
`time`, the list operation panics; if the row fetched by the get-one lookup
has a NULL `time`, the lookup panics even though the row exists; if the
insert's returned row has a NULL `time` (no column default), the create
panics; and a non-panicking list result requires every matching row to
carry a non-NULL `time`. -/
theorem c10_null_time_panics :
    (∀ (db : ActixPostgres.Db) (t : Int) (r : ActixPostgres.Row),
      r ∈ db.filter (fun r => r.teacher_id == t) → r.time = none →
      ActixPostgres.get_courses_for_teacher_db db t = none) ∧
    (∀ (db : ActixPostgres.Db) (t c : Int) (r : ActixPostgres.Row),
      (db.filter (fun r => r.teacher_id == t && r.id == c)).head? = some r →
      r.time = none →
      ActixPostgres.get_course_details_db db t c = none) ∧
    (∀ (db : ActixPostgres.Db) (c : ActixPostgres.Course) (k : Int),
      c.id = some k →
      ActixPostgres.post_new_course_db db c none = none) ∧
    (∀ (db : ActixPostgres.Db) (t : Int)
        (res : Except ActixPostgres.MyError (List ActixPostgres.Course)),
      ActixPostgres.get_courses_for_teacher_db db t = some res →
      ∀ r ∈ db.filter (fun r => r.teacher_id == t), r.time.isSome) := by
  refine ⟨?_, ?_, ?_, ?_⟩
  · intro db t r hr hrt
    unfold ActixPostgres.get_courses_for_teacher_db
    have hm : (db.filter (fun r => r.teacher_id == t)).mapM' ActixPostgres.rowToCourse =
        none :=
      (ActixPostgres.mapM'_rowToCourse_none _).mpr ⟨r, hr, hrt⟩
    rw [hm]
    rfl
  · intro db t c r hr hrt
    unfold ActixPostgres.get_course_details_db
    rw [hr]
    simp [ActixPostgres.rowToCourse, hrt]
  · intro db c k hk
    unfold ActixPostgres.post_new_course_db
    rw [hk]
    simp [ActixPostgres.rowToCourse]
  · intro db t res h
    unfold ActixPostgres.get_courses_for_teacher_db at h
    cases hm : (db.filter (fun r => r.teacher_id == t)).mapM' ActixPostgres.rowToCourse with
    | none => rw [hm] at h; cases h
    | some cs =>
        obtain ⟨_, hall⟩ := ActixPostgres.mapM'_rowToCourse_some _ cs hm
        exact hall

theorem c10_null_time_panics_witness :
    (({ id := 1, teacher_id := 1, name := "A", time := none } : ActixPostgres.Row) ∈
        ([{ id := 1, teacher_id := 1, name := "A", time := none }] :
          ActixPostgres.Db).filter (fun r => r.teacher_id == 1) ∧
      ActixPostgres.get_courses_for_teacher_db
        [{ id := 1, teacher_id := 1, name := "A", time := none }] 1 = none) ∧
    ((([{ id := 1, teacher_id := 1, name := "A", time := none }] :
          ActixPostgres.Db).filter (fun r => r.teacher_id == 1 && r.id == 1)).head? =
        some { id := 1, teacher_id := 1, name := "A", time := none } ∧
      ActixPostgres.get_course_details_db
        [{ id := 1, teacher_id := 1, name := "A", time := none }] 1 1 = none) ∧
    ActixPostgres.post_new_course_db []
      { teacher_id := 1, id := some 9, name := "B", time := none } none = none :=
  ⟨⟨List.mem_singleton.mpr rfl,
    c10_null_time_panics.1 [{ id := 1, teacher_id := 1, name := "A", time := none }] 1
      { id := 1, teacher_id := 1, name := "A", time := none }
      (List.mem_singleton.mpr rfl) rfl⟩,
   ⟨rfl,
    c10_null_time_panics.2.1 [{ id := 1, teacher_id := 1, name := "A", time := none }] 1 1
      { id := 1, teacher_id := 1, name := "A", time := none } rfl rfl⟩,
   c10_null_time_panics.2.2.1 []
     { teacher_id := 1, id := some 9, name := "B", time := none } 9 rfl⟩

